import Mathlib

/-!
Verification development for the Boulder portal downloader
(`boulder_downloader_clean.py`).

The Python module drives one browser session through search, per-result
authentication checks, document capture and recovery navigation.  Below we
give a shallow embedding of its core:

* `ExecCtx` / `PageState` model one DOM execution context (primary document,
  nested frame, or popup window) and the set of contexts of the session, as
  observed through the locator queries the code performs.
* `is_authenticated`, `has_login_forms`, `handle_login`, `auth_loop` and
  `ensure_authenticated` translate the corresponding (nested) functions of
  `BoulderPortalDownloader.ensure_authenticated`.  The asynchronous
  environment is modelled as a list of `Attempt` observations, one per
  polling iteration (`pre` is the state seen by the checks of the
  iteration, `post` the state seen by the re-check after a credential
  submission and its settle sleep).  Credential fills are recorded as the
  list of `CtxId` targets handed to `_fill_login_form`.
* `sanitize_filename` and `create_query_slug` translate the two pure
  sanitizers (Python `re.sub` on the ASCII classes the patterns use).
* The download orchestrator (`download_pdf_from_result`,
  `download_all_pdfs`) is embedded as a function from an environment
  describing each item's outcomes to the returned result together with the
  ordered trace of page operations (`Op`) the code performs.
-/

/-- One DOM execution context, as observed by the locator queries of
`ensure_authenticated`: visibility of the download button and the element
counts of the four login-form selectors. -/
structure ExecCtx where
  downloadVisible : Bool
  passwordCount : Nat
  passwordNameCount : Nat
  signInCount : Nat
  loginCount : Nat
deriving DecidableEq, Repr

/-- The neutral context: nothing visible, no login-form elements. -/
def ExecCtx.neutral : ExecCtx :=
  { downloadVisible := false, passwordCount := 0, passwordNameCount := 0
    signInCount := 0, loginCount := 0 }

/-- The contexts of the browser session: the primary document
(`page`/`page.main_frame`), the non-main frames (`page.frames` minus the
main frame) and the popup windows (`page.context.pages[1:]`). -/
structure PageState where
  main : ExecCtx
  frames : List ExecCtx
  popups : List ExecCtx
deriving DecidableEq, Repr

/-- Identifier for the context object handed to `_fill_login_form`. -/
inductive CtxId where
  | mainPage
  | frame (i : Nat)
  | popup (i : Nat)
deriving DecidableEq, Repr

/-- `_has_login_forms`'s per-context test: any of the four selectors
(`input[type="password"]`, `input[name="password"]`, a Sign In button, a
Login button) matches at least one element. -/
def hasLoginSignal (c : ExecCtx) : Bool :=
  decide (0 < c.passwordCount) || decide (0 < c.passwordNameCount) ||
    decide (0 < c.signInCount) || decide (0 < c.loginCount)

/-- `_is_authenticated`: the download button is visible on the main page,
or in some non-main frame.  (The code does not consult
`page.context.pages`, so popups are not scanned here.) -/
def is_authenticated (s : PageState) : Bool :=
  s.main.downloadVisible || s.frames.any (fun c => c.downloadVisible)

/-- `_has_login_forms`: some login selector matches on the main page or in
some non-main frame. -/
def has_login_forms (s : PageState) : Bool :=
  hasLoginSignal s.main || s.frames.any hasLoginSignal

/-- `_handle_login`: the branch structure of the code.  The first branch
tests `_has_login_forms()` (main page *and* frames) and, when it fires,
fills the form on the main page.  Otherwise the frames, then the popups,
are probed for a password input and the first hit is filled.  Returns
whether a branch fired, and the context handed to `_fill_login_form`. -/
def handle_login (s : PageState) : Bool × Option CtxId :=
  if has_login_forms s then
    (true, some CtxId.mainPage)
  else
    match s.frames.findIdx? (fun c => decide (0 < c.passwordCount)) with
    | some i => (true, some (CtxId.frame i))
    | none =>
      match s.popups.findIdx? (fun c => decide (0 < c.passwordCount)) with
      | some i => (true, some (CtxId.popup i))
      | none => (false, none)

/-- One polling iteration's observations: `pre` is the page state seen by
the checks at the head of the iteration, `post` the state seen by the
re-check that follows a credential submission and the 3s settle sleep. -/
structure Attempt where
  pre : PageState
  post : PageState
deriving DecidableEq, Repr

/-- The body of `_auth_loop`, folded over the remaining iterations.
`fills` accumulates the fill targets so far.  Result `none` models the
`asyncio.TimeoutError` raised when the attempts are exhausted; `some lp`
models a normal return with `lp` the login-performed flag. -/
def auth_loop_go : List Attempt → List CtxId → Option Bool × List CtxId
  | [], fills => (none, fills)
  | a :: rest, fills =>
    if is_authenticated a.pre then (some false, fills)
    else if has_login_forms a.pre then
      let hl := handle_login a.pre
      if hl.1 then
        let fills' := fills ++ hl.2.toList
        if is_authenticated a.post then (some true, fills')
        else auth_loop_go rest fills'
      else auth_loop_go rest fills
    else auth_loop_go rest fills

/-- `_auth_loop`: at most 6 polling iterations (`for attempt in range(6)`),
then `asyncio.TimeoutError`. -/
def auth_loop (env : List Attempt) : Option Bool × List CtxId :=
  auth_loop_go (env.take 6) []

/-- `ensure_authenticated`: wraps `_auth_loop` in the single timeout guard;
a timeout (from the guard or from the loop itself) yields `(False, False)`.
The second component is the trace of credential-fill targets. -/
def ensure_authenticated (env : List Attempt) : (Bool × Bool) × List CtxId :=
  match auth_loop env with
  | (some lp, fills) => ((true, lp), fills)
  | (none, fills) => ((false, false), fills)

/-! ## Sanitizers -/

/-- The character class of `re.sub(r'[<>:"/\\|?*]', '_', filename)`. -/
def illegalChar (c : Char) : Bool :=
  c = '<' || c = '>' || c = ':' || c = '"' || c = '/' || c = '\\' ||
    c = '|' || c = '?' || c = '*'

/-- Replacement performed on each character by `sanitize_filename`. -/
def sanitizeChar (c : Char) : Char :=
  if illegalChar c then '_' else c

/-- `sanitize_filename`: replace the illegal characters by `_`, then
truncate to 200 characters (`filename[:200]`). -/
def sanitize_filename (s : String) : String :=
  String.mk ((s.data.map sanitizeChar).take 200)

/-- ASCII whitespace, the characters Python's `\s` and `str.strip()` treat
as space on ASCII text. -/
def isPySpace (c : Char) : Bool :=
  c = ' ' || c = '\t' || c = '\n' || c = '\r' || c = '\x0b' || c = '\x0c'

/-- The characters kept by `re.sub(r'[^a-zA-Z0-9\s-]', '', query)`. -/
def slugKeep (c : Char) : Bool :=
  (decide ('a' ≤ c) && decide (c ≤ 'z')) ||
    (decide ('A' ≤ c) && decide (c ≤ 'Z')) ||
    (decide ('0' ≤ c) && decide (c ≤ '9')) ||
    isPySpace c || c = '-'

/-- `str.strip()`: drop leading and trailing whitespace. -/
def stripSpaces (l : List Char) : List Char :=
  ((l.dropWhile isPySpace).reverse.dropWhile isPySpace).reverse

/-- `re.sub(r'\s+', '_', ...)`: replace each maximal whitespace run by one
underscore.  The boolean argument records whether we are inside a run. -/
def collapseWsGo : Bool → List Char → List Char
  | _, [] => []
  | inRun, c :: rest =>
    if isPySpace c then
      if inRun then collapseWsGo true rest
      else '_' :: collapseWsGo true rest
    else c :: collapseWsGo false rest

/-- `create_query_slug`: remove everything but `[a-zA-Z0-9\s-]`, strip,
collapse whitespace runs to `_`, truncate to 50 characters. -/
def create_query_slug (q : String) : String :=
  String.mk ((collapseWsGo false (stripSpaces (q.data.filter slugKeep))).take 50)

/-! ## Filename derivation -/

/-- The character for one decimal digit value. -/
def digitChar (n : Nat) : Char :=
  if n = 0 then '0' else if n = 1 then '1' else if n = 2 then '2'
  else if n = 3 then '3' else if n = 4 then '4' else if n = 5 then '5'
  else if n = 6 then '6' else if n = 7 then '7' else if n = 8 then '8'
  else '9'

/-- Decimal digit characters of `n`, most significant first, with fuel for
the division recursion. -/
def natDigitsGo : Nat → Nat → List Char
  | 0, _ => []
  | fuel + 1, n =>
    if n < 10 then [digitChar n]
    else natDigitsGo fuel (n / 10) ++ [digitChar (n % 10)]

/-- Decimal representation of `n` as characters. -/
def natDigits (n : Nat) : List Char :=
  natDigitsGo (n + 1) n

/-- Python's `f"{n:02d}"` for a non-negative `n`: the decimal digits,
left-padded with `'0'` to width at least 2. -/
def pyFormat02d (n : Nat) : List Char :=
  let ds := natDigits n
  if ds.length < 2 then List.replicate (2 - ds.length) '0' ++ ds else ds

/-- The fallback suggested name `f"document_{index}.pdf"` used when the
browser suggests no (or an empty) filename. -/
def fallbackName (index : Nat) : String :=
  "document_" ++ String.mk (natDigits index) ++ ".pdf"

/-- The stored filename
`f"{index:02d}_{query_slug}__{safe_filename}"` where `safe_filename` is
the sanitized effective suggested name. -/
def final_filename (index : Nat) (querySlug suggested : String) : String :=
  let effective := if suggested = "" then fallbackName index else suggested
  String.mk (pyFormat02d index) ++ "_" ++ querySlug ++ "__" ++
    sanitize_filename effective

/-- The filename actually derived for result `index` of query `query`:
the query slug is `create_query_slug query` (computed once per run). -/
def derived_filename (index : Nat) (query suggested : String) : String :=
  final_filename index (create_query_slug query) suggested

/-! ## The spec's filename pattern

`regexSpecMatch W s` decides whether `s` matches `^\d{2,}_[W]{0,50}__.+`
(with `W` the bracketed character class), by the standard existential
semantics of regular-expression matching: some choice of the `\d{2,}`
length and the `[W]{0,50}` length makes every piece fit.  With
`W = specWordChar` this is exactly the regular expression
`^\d{2,}_[A-Za-z0-9_]{0,50}__.+` quoted by the specification; these two
definitions follow the spec's words (not the code) on purpose, to be
compared against `derived_filename`. -/

/-- `\d`. -/
def isDig (c : Char) : Bool :=
  decide ('0' ≤ c) && decide (c ≤ '9')

/-- The class `[A-Za-z0-9_]` of the spec's pattern. -/
def specWordChar (c : Char) : Bool :=
  (decide ('a' ≤ c) && decide (c ≤ 'z')) ||
    (decide ('A' ≤ c) && decide (c ≤ 'Z')) ||
    (decide ('0' ≤ c) && decide (c ≤ '9')) || c = '_'

/-- The class `[A-Za-z0-9_-]`: the spec's class extended with the hyphen,
which `create_query_slug` preserves. -/
def specWordCharHyphen (c : Char) : Bool :=
  specWordChar c || c = '-'

/-- Match `[W]{0,50}__.+` against `t`: some i ≤ 50 splits `t` into an
all-`W` block of length `i`, two underscores, and a non-empty tail. -/
def midMatch (W : Char → Bool) (t : List Char) : Bool :=
  (List.range 51).any fun i =>
    (t.take i).all W &&
      (match t.drop i with
       | '_' :: '_' :: _ :: _ => true
       | _ => false)

/-- Match `^\d{2,}_[W]{0,50}__.+` against `s`. -/
def regexSpecMatch (W : Char → Bool) (s : String) : Bool :=
  let l := s.data
  (List.range (l.length + 1)).any fun d =>
    decide (2 ≤ d) && (l.take d).all isDig &&
      (match l.drop d with
       | '_' :: t => midMatch W t
       | _ => false)

/-! ## Download orchestrator -/

/-- A page operation performed by the orchestrator, in program order.
`authCheck` stands for one `ensure_authenticated` call (whose internal
waits and fills are modelled separately); `gotoResults` is
`page.goto(results_url)` — the recovery navigation; `gotoSearch` is the
navigation performed by `perform_search`. -/
inductive Op where
  | gotoSearch
  | clickRow (i : Nat)
  | waitMs (ms : Nat)
  | authCheck
  | saveSession
  | clickDownload (i : Nat)
  | saveFile (name : String)
  | gotoResults
deriving DecidableEq, Repr

/-- Recognizer for the session-persistence operation. -/
def isSaveOp : Op → Bool
  | Op.saveSession => true
  | _ => false

/-- The environment of one item: what the page does when the item is
processed.  `landsOnDetail` is whether `'/doc/' in page.url` holds after
the row click; `authEnv` drives the `ensure_authenticated` call;
`captureOk` is whether `expect_download` produces an artifact before its
timeout; `suggestedName` is `download.suggested_filename` (the empty
string models a falsy value, which selects the fallback name). -/
structure ItemEnv where
  landsOnDetail : Bool
  authEnv : List Attempt
  downloadBtnVisible : Bool
  captureOk : Bool
  suggestedName : String
deriving DecidableEq, Repr

/-- `download_pdf_from_result` for result number `idx`: the returned
filename (`none` on any failure — the function catches every exception it
raises) and the trace of page operations it performs. -/
def download_pdf_from_result (querySlug : String) (idx : Nat) (it : ItemEnv) :
    Option String × List Op :=
  let ops0 := [Op.clickRow idx, Op.waitMs 3000]
  if !it.landsOnDetail then (none, ops0)
  else
    let auth := ensure_authenticated it.authEnv
    let ops1 := ops0 ++ [Op.authCheck]
    if !auth.1.1 then (none, ops1)
    else
      let ops2 := if auth.1.2 then ops1 ++ [Op.saveSession] else ops1
      if it.downloadBtnVisible then
        if it.captureOk then
          let fname := final_filename idx querySlug it.suggestedName
          (some fname,
            ops2 ++ [Op.clickDownload idx, Op.saveFile fname,
              Op.gotoResults, Op.waitMs 2000])
        else
          (none, ops2 ++ [Op.clickDownload idx])
      else (none, ops2)

/-- One row of the settled results page: the length of its stripped text
content, and the item behaviour if the row is selected for processing. -/
structure RowEnv where
  textLen : Nat
  item : ItemEnv
deriving DecidableEq, Repr

/-- The environment of one run: whether `perform_search` succeeds, and the
rows of the results page. -/
structure RunEnv where
  searchOk : Bool
  rows : List RowEnv
deriving DecidableEq, Repr

/-- `get_search_results`: enumerate the row elements 1-based and keep the
rows whose stripped text is longer than 10 characters, paired with their
enumeration index. -/
def get_search_results (rows : List RowEnv) : List (Nat × ItemEnv) :=
  (List.zip (List.range' 1 rows.length) rows).filterMap fun p =>
    if 10 < p.2.textLen then some (p.1, p.2.item) else none

/-- Python's `xs[:l]` for an `int` bound `l`: take `l` from the front when
`l ≥ 0`, all but the last `-l` elements when `l < 0`. -/
def pySliceTo (l : Int) (xs : List α) : List α :=
  if 0 ≤ l then xs.take l.toNat else xs.take ((xs.length : Int) + l).toNat

/-- The result list after the limit step
(`if self.limit and self.limit < total_results: results = results[:self.limit]`):
`none` models a `None` limit, and the Python truthiness test makes a zero
limit ineffective. -/
def selectedResults (limit : Option Int) (env : RunEnv) : List (Nat × ItemEnv) :=
  let results := get_search_results env.rows
  match limit with
  | none => results
  | some l =>
    if l ≠ 0 ∧ l < (results.length : Int) then pySliceTo l results else results

/-- The per-item loop of `download_all_pdfs`: successes counted,
filenames accumulated in order, the item traces concatenated (with the 1s
pause after each item). -/
def processItems (querySlug : String) : List (Nat × ItemEnv) → Nat × List String × List Op
  | [] => (0, [], [])
  | (idx, it) :: rest =>
    let r := download_pdf_from_result querySlug idx it
    let tail := processItems querySlug rest
    match r.1 with
    | some f => (tail.1 + 1, f :: tail.2.1, (r.2 ++ [Op.waitMs 1000]) ++ tail.2.2)
    | none => (tail.1, tail.2.1, (r.2 ++ [Op.waitMs 1000]) ++ tail.2.2)

/-- `download_all_pdfs`: search, enumerate, apply the limit, process the
items, save the session state, return `{'count': …, 'files': …}` — and
the trace of page operations of the whole run.  A failed search or an
empty result list returns `{'count': 0, 'files': []}` at once. -/
def download_all_pdfs (limit : Option Int) (query : String) (env : RunEnv) :
    (Nat × List String) × List Op :=
  let querySlug := create_query_slug query
  if !env.searchOk then ((0, []), [Op.gotoSearch])
  else if (get_search_results env.rows).isEmpty then
    ((0, []), [Op.gotoSearch, Op.waitMs 3000])
  else
    let body := processItems querySlug (selectedResults limit env)
    ((body.1, body.2.1),
      ([Op.gotoSearch, Op.waitMs 3000] ++ body.2.2) ++ [Op.saveSession])

/-- The `{'count': …, 'files': …}` dictionary returned by a run. -/
def runResult (limit : Option Int) (query : String) (env : RunEnv) :
    Nat × List String :=
  (download_all_pdfs limit query env).1

/-- The page-operation trace of a run. -/
def runOps (limit : Option Int) (query : String) (env : RunEnv) : List Op :=
  (download_all_pdfs limit query env).2

/-- Whether processing an item performs the post-login session save: the
detail view was reached, the authentication call succeeded, and it reports
that a login was performed in this call. -/
def itemLoginSave (it : ItemEnv) : Bool :=
  it.landsOnDetail && (ensure_authenticated it.authEnv).1.1 &&
    (ensure_authenticated it.authEnv).1.2

/-! ## Concrete states and environments used by the theorems -/

/-- A context holding exactly one password input and nothing else. -/
def frameLoginCtx : ExecCtx :=
  { ExecCtx.neutral with passwordCount := 1 }

/-- A context where the download button is visible. -/
def downloadCtx : ExecCtx :=
  { ExecCtx.neutral with downloadVisible := true }

/-- A page whose only login form sits in a nested frame. -/
def frameOnlyState : PageState :=
  { main := ExecCtx.neutral, frames := [frameLoginCtx], popups := [] }

/-- A page where the download button is visible only in a popup window. -/
def popupAuthedState : PageState :=
  { main := ExecCtx.neutral, frames := [], popups := [downloadCtx] }

/-- A page with the download button visible on the main page. -/
def authedState : PageState :=
  { main := downloadCtx, frames := [], popups := [] }

/-- A page showing neither the download button nor any login form. -/
def neutralState : PageState :=
  { main := ExecCtx.neutral, frames := [], popups := [] }

/-- An iteration observing nothing (no affordance, no form). -/
def attNeutral : Attempt :=
  { pre := neutralState, post := neutralState }

/-- An iteration observing the download button on the main page. -/
def attAuthed : Attempt :=
  { pre := authedState, post := authedState }

/-- An iteration observing a login form on the main page whose submission
succeeds (the re-check after the settle sleep sees the button). -/
def attMainLogin : Attempt :=
  { pre := { main := frameLoginCtx, frames := [], popups := [] }
    post := authedState }

/-- An iteration observing a login form in a nested frame only. -/
def attFrameLogin : Attempt :=
  { pre := frameOnlyState, post := frameOnlyState }

/-- An item that is already authenticated and downloads cleanly. -/
def itemOk : ItemEnv :=
  { landsOnDetail := true, authEnv := [attAuthed], downloadBtnVisible := true
    captureOk := true, suggestedName := "doc.pdf" }

/-- An item whose row click never reaches a detail view. -/
def itemNavFail : ItemEnv :=
  { itemOk with landsOnDetail := false }

/-- An item that performs a successful login before downloading. -/
def itemLogin : ItemEnv :=
  { itemOk with authEnv := [attMainLogin] }

/-- A results-page row with enough text to be kept, behaving as `it`. -/
def rowOf (it : ItemEnv) : RowEnv :=
  { textLen := 20, item := it }

/-- A run whose first item fails navigation and whose second succeeds. -/
def runEnvNavFailFirst : RunEnv :=
  { searchOk := true, rows := [rowOf itemNavFail, rowOf itemOk] }

/-- A run of two items that both succeed. -/
def runEnvTwoOk : RunEnv :=
  { searchOk := true, rows := [rowOf itemOk, rowOf itemOk] }

/-- A run of one successful item. -/
def runEnvOneOk : RunEnv :=
  { searchOk := true, rows := [rowOf itemOk] }

/-- A run whose search navigation fails. -/
def runEnvSearchFail : RunEnv :=
  { searchOk := false, rows := [rowOf itemOk] }

/-- A run whose first item logs in and whose second is already
authenticated. -/
def runEnvLoginFirst : RunEnv :=
  { searchOk := true, rows := [rowOf itemLogin, rowOf itemOk] }

/-- A run whose two items both fail to reach a detail view. -/
def runEnvTwoNavFail : RunEnv :=
  { searchOk := true, rows := [rowOf itemNavFail, rowOf itemNavFail] }

/-! ## Helper lemmas -/

lemma sanitizeChar_idem (c : Char) : sanitizeChar (sanitizeChar c) = sanitizeChar c := by
  unfold sanitizeChar
  by_cases h : illegalChar c
  · simp [h]
  · simp [h]

lemma auth_loop_go_none (l : List Attempt) (fills : List CtxId)
    (h : ∀ a ∈ l, is_authenticated a.pre = false ∧ has_login_forms a.pre = false) :
    auth_loop_go l fills = (none, fills) := by
  induction l with
  | nil => rfl
  | cons a rest ih =>
    have ha := h a (List.mem_cons_self a rest)
    have hrest : ∀ b ∈ rest, is_authenticated b.pre = false ∧ has_login_forms b.pre = false :=
      fun b hb => h b (List.mem_cons_of_mem a hb)
    simp [auth_loop_go, ha.1, ha.2, ih hrest]

/-! ## Claims -/

/-- Claim C1 (code-bug evidence).  When a login form is present only inside
a nested frame, `_handle_login`'s first branch fires anyway — the branch
tests `_has_login_forms()`, which scans the frames too — and the credential
fill is performed on the primary document, not in the frame.  Driven
through the full `ensure_authenticated` loop this repeats every iteration:
all six fills target the main page and the call times out. -/
theorem C1_login_fill_targets_main_page_on_frame_only_form :
    hasLoginSignal frameOnlyState.main = false ∧
    frameOnlyState.frames.any hasLoginSignal = true ∧
    handle_login frameOnlyState = (true, some CtxId.mainPage) ∧
    ensure_authenticated
        [attFrameLogin, attFrameLogin, attFrameLogin,
         attFrameLogin, attFrameLogin, attFrameLogin] =
      ((false, false),
       [CtxId.mainPage, CtxId.mainPage, CtxId.mainPage,
        CtxId.mainPage, CtxId.mainPage, CtxId.mainPage]) := by
  decide

/-- Claim C2 counterexample.  A session state whose download button is
visible only in a popup window: the authenticated-affordance check reports
`false`, so the check does not enumerate popup windows. -/
theorem C2_counterexample_popup_affordance_missed :
    popupAuthedState.popups.any (fun c => c.downloadVisible) = true ∧
    is_authenticated popupAuthedState = false := by
  decide

/-- Claim C2, amended.  The authenticated-affordance check enumerates the
primary document and every nested frame — it reports `true` exactly when
the affordance is visible in one of those — and is independent of the
popup windows of the session, which it never scans. -/
theorem C2_amended_auth_check_scans_main_and_frames_only (s : PageState) :
    (is_authenticated s = true ↔
      s.main.downloadVisible = true ∨ ∃ c ∈ s.frames, c.downloadVisible = true) ∧
    ∀ ps : List ExecCtx, is_authenticated { s with popups := ps } = is_authenticated s := by
  constructor
  · simp [is_authenticated, List.any_eq_true]
  · intro ps
    rfl

/-- Claim C3.  If no polling iteration ever observes the authenticated
affordance or a login form, `ensure_authenticated` returns exactly
`(false, false)` with no credential fill performed; and the whole
detect-and-login sequence is governed by the single budget of 6
fixed-interval attempts (the 30s guard realized as `range(6)`): the result
only depends on the first 6 iterations. -/
theorem C3_timeout_returns_false_false :
    (∀ env : List Attempt,
        (∀ a ∈ env, is_authenticated a.pre = false ∧ has_login_forms a.pre = false) →
        ensure_authenticated env = ((false, false), [])) ∧
    ∀ env : List Attempt, ensure_authenticated env = ensure_authenticated (env.take 6) := by
  constructor
  · intro env h
    have : auth_loop_go (env.take 6) [] = (none, []) :=
      auth_loop_go_none _ _ (fun a ha => h a (List.take_subset 6 env ha))
    simp [ensure_authenticated, auth_loop, this]
  · intro env
    simp [ensure_authenticated, auth_loop, List.take_take]

/-- Witness for C3 at a concrete 6-iteration environment observing
nothing. -/
theorem C3_timeout_returns_false_false_witness :
    ensure_authenticated
        [attNeutral, attNeutral, attNeutral, attNeutral, attNeutral, attNeutral] =
      ((false, false), []) :=
  C3_timeout_returns_false_false.1 _ (by decide)

/-- Claim C5.  If the authenticated affordance is visible in a scanned
context on the first check, `ensure_authenticated` returns `(true, false)`
immediately and performs no credential fill. -/
theorem C5_already_authenticated_short_circuit (a : Attempt) (rest : List Attempt)
    (h : is_authenticated a.pre = true) :
    ensure_authenticated (a :: rest) = ((true, false), []) := by
  simp [ensure_authenticated, auth_loop, List.take_succ_cons, auth_loop_go, h]

/-- Witness for C5 at a concrete state showing the download button on the
main page. -/
theorem C5_already_authenticated_short_circuit_witness :
    ensure_authenticated [attAuthed, attNeutral] = ((true, false), []) :=
  C5_already_authenticated_short_circuit attAuthed [attNeutral] (by decide)

/-- Claim C9 counterexample.  `create_query_slug` is not a fixed point on
its own outputs: the slug of `"a b"` is `"a_b"`, but slugging `"a_b"`
again deletes the underscore (the first `re.sub` removes every character
outside `[a-zA-Z0-9\s-]`, and `_` is outside it), giving `"ab"`. -/
theorem C9_counterexample_slug_not_idempotent :
    create_query_slug "a b" = "a_b" ∧
    create_query_slug (create_query_slug "a b") = "ab" ∧
    create_query_slug (create_query_slug "a b") ≠ create_query_slug "a b" := by
  decide

/-- Claim C9, amended.  `sanitize_filename` is idempotent — sanitizing an
already-sanitized filename is a no-op — but `create_query_slug` is not: a
second application removes the underscores the first one introduced for
whitespace runs. -/
theorem C9_amended_sanitize_idempotent_slug_not :
    (∀ s : String, sanitize_filename (sanitize_filename s) = sanitize_filename s) ∧
    create_query_slug (create_query_slug "a b") ≠ create_query_slug "a b" := by
  constructor
  · intro s
    show String.mk ((((s.data.map sanitizeChar).take 200).map sanitizeChar).take 200) = _
    rw [List.map_take, List.take_take, List.map_map]
    have : sanitizeChar ∘ sanitizeChar = sanitizeChar := funext sanitizeChar_idem
    rw [this]
    simp [sanitize_filename]
  · decide

/-- Claim C10.  A zero result-count limit is treated as if no limit were
supplied: the Python truthiness test `if self.limit and ...` skips the
truncation, every enumerated result is selected, and the whole run behaves
identically to a run without a limit. -/
theorem C10_zero_limit_treated_as_no_limit (query : String) (env : RunEnv) :
    download_all_pdfs (some 0) query env = download_all_pdfs none query env ∧
    selectedResults (some 0) env = get_search_results env.rows := by
  have hsel : selectedResults (some 0) env = get_search_results env.rows := by
    simp [selectedResults]
  refine ⟨?_, hsel⟩
  simp [download_all_pdfs, selectedResults]

/-! ## Orchestrator lemmas -/

lemma item_saveCount (slug : String) (idx : Nat) (it : ItemEnv) :
    (download_pdf_from_result slug idx it).2.countP isSaveOp =
      if itemLoginSave it then 1 else 0 := by
  cases hld : it.landsOnDetail <;>
    cases ha : (ensure_authenticated it.authEnv).1.1 <;>
      cases hj : (ensure_authenticated it.authEnv).1.2 <;>
        cases hb : it.downloadBtnVisible <;>
          cases hc : it.captureOk <;>
            simp [download_pdf_from_result, itemLoginSave, hld, ha, hj, hb, hc,
              List.countP_append, List.countP_cons, isSaveOp]

lemma download_clickRow_mem (slug : String) (idx : Nat) (it : ItemEnv) :
    Op.clickRow idx ∈ (download_pdf_from_result slug idx it).2 := by
  cases hld : it.landsOnDetail <;>
    cases ha : (ensure_authenticated it.authEnv).1.1 <;>
      cases hj : (ensure_authenticated it.authEnv).1.2 <;>
        cases hb : it.downloadBtnVisible <;>
          cases hc : it.captureOk <;>
            simp [download_pdf_from_result, hld, ha, hj, hb, hc]

lemma processItems_count_eq_length (slug : String) (items : List (Nat × ItemEnv)) :
    (processItems slug items).1 = (processItems slug items).2.1.length := by
  induction items with
  | nil => rfl
  | cons p rest ih =>
    obtain ⟨idx, it⟩ := p
    cases h : (download_pdf_from_result slug idx it).1 <;>
      simp [processItems, h, ih]

lemma processItems_count_le (slug : String) (items : List (Nat × ItemEnv)) :
    (processItems slug items).1 ≤ items.length := by
  induction items with
  | nil => simp [processItems]
  | cons p rest ih =>
    obtain ⟨idx, it⟩ := p
    cases h : (download_pdf_from_result slug idx it).1 <;>
      simp [processItems, h] <;> omega

lemma processItems_saveCount (slug : String) (items : List (Nat × ItemEnv)) :
    (processItems slug items).2.2.countP isSaveOp =
      items.countP (fun p => itemLoginSave p.2) := by
  induction items with
  | nil => rfl
  | cons p rest ih =>
    obtain ⟨idx, it⟩ := p
    cases h : (download_pdf_from_result slug idx it).1 <;>
      by_cases hsave : itemLoginSave it <;>
        simp [processItems, h, hsave, List.countP_append, List.countP_cons,
          isSaveOp, item_saveCount, ih] <;> omega

lemma processItems_clickRow_mem (slug : String) (items : List (Nat × ItemEnv))
    (p : Nat × ItemEnv) (hp : p ∈ items) :
    Op.clickRow p.1 ∈ (processItems slug items).2.2 := by
  induction items with
  | nil => cases hp
  | cons q rest ih =>
    obtain ⟨idx, it⟩ := q
    rcases List.mem_cons.mp hp with h | h
    · subst h
      have hm := download_clickRow_mem slug idx it
      cases hres : (download_pdf_from_result slug idx it).1 <;>
        · simp only [processItems, hres]
          exact List.mem_append_left _ (List.mem_append_left _ hm)
    · have hm := ih h
      cases hres : (download_pdf_from_result slug idx it).1 <;>
        · simp only [processItems, hres]
          exact List.mem_append_right _ hm

lemma selectedResults_subset (limit : Option Int) (env : RunEnv) :
    selectedResults limit env ⊆ get_search_results env.rows := by
  intro p hp
  cases limit with
  | none => exact hp
  | some l =>
    simp only [selectedResults] at hp
    split at hp
    · unfold pySliceTo at hp
      split at hp
      · exact List.take_subset _ _ hp
      · exact List.take_subset _ _ hp
    · exact hp

lemma selectedResults_length_le (limit : Option Int) (env : RunEnv) :
    (selectedResults limit env).length ≤ (get_search_results env.rows).length := by
  cases limit with
  | none => exact le_refl _
  | some l =>
    simp only [selectedResults]
    split
    · unfold pySliceTo
      split <;> simp [List.length_take]
    · exact le_refl _

lemma selectedResults_length_le_pos (l : Int) (env : RunEnv) (hl : 0 < l) :
    ((selectedResults (some l) env).length : Int) ≤ l := by
  simp only [selectedResults]
  split
  · unfold pySliceTo
    rw [if_pos (le_of_lt hl)]
    have h := List.length_take_le l.toNat (get_search_results env.rows)
    omega
  · rename_i h
    omega

lemma run_body (limit : Option Int) (query : String) (env : RunEnv)
    (hs : env.searchOk = true) (hr : get_search_results env.rows ≠ []) :
    download_all_pdfs limit query env =
      (((processItems (create_query_slug query) (selectedResults limit env)).1,
        (processItems (create_query_slug query) (selectedResults limit env)).2.1),
       ([Op.gotoSearch, Op.waitMs 3000] ++
          (processItems (create_query_slug query) (selectedResults limit env)).2.2) ++
         [Op.saveSession]) := by
  simp [download_all_pdfs, hs, List.isEmpty_eq_true, hr, selectedResults]

/-- Claim C4 counterexample.  A run whose two items both fail to reach a
detail view: the full page-operation trace contains no load of the results
URL at all — in particular the operation following item 1's failure is not
a recovery navigation but the pause and the click on item 2's row. -/
theorem C4_counterexample_failed_item_no_recovery_navigation :
    runOps none "q" runEnvTwoNavFail =
      [Op.gotoSearch, Op.waitMs 3000,
       Op.clickRow 1, Op.waitMs 3000, Op.waitMs 1000,
       Op.clickRow 2, Op.waitMs 3000, Op.waitMs 1000,
       Op.saveSession] ∧
    (runResult none "q" runEnvTwoNavFail).1 = 0 ∧
    Op.gotoResults ∉ runOps none "q" runEnvTwoNavFail := by
  decide

/-- Claim C4, amended.  Recovery navigation follows success, not failure:
after a successfully captured item the item's trace ends with a fresh load
of the stored results URL (followed only by its settle wait); after an
item that fails — navigation, authentication, missing affordance or
capture failure, all reported by a `None` return — no recovery navigation
occurs in that item's trace.  A single item's failure still never aborts
the run: every selected item's row is clicked. -/
theorem C4_amended_recovery_follows_success_not_failure :
    (∀ (slug : String) (idx : Nat) (it : ItemEnv),
        (download_pdf_from_result slug idx it).1.isSome = true →
        (download_pdf_from_result slug idx it).2 =
          ([Op.clickRow idx, Op.waitMs 3000, Op.authCheck] ++
            (if (ensure_authenticated it.authEnv).1.2 then [Op.saveSession] else [])) ++
          [Op.clickDownload idx,
           Op.saveFile (final_filename idx slug it.suggestedName),
           Op.gotoResults, Op.waitMs 2000]) ∧
    (∀ (slug : String) (idx : Nat) (it : ItemEnv),
        (download_pdf_from_result slug idx it).1 = none →
        Op.gotoResults ∉ (download_pdf_from_result slug idx it).2) ∧
    (∀ (limit : Option Int) (query : String) (env : RunEnv) (p : Nat × ItemEnv),
        env.searchOk = true → p ∈ selectedResults limit env →
        Op.clickRow p.1 ∈ runOps limit query env) := by
  refine ⟨?_, ?_, ?_⟩
  · intro slug idx it h
    cases hld : it.landsOnDetail <;>
      cases ha : (ensure_authenticated it.authEnv).1.1 <;>
        cases hj : (ensure_authenticated it.authEnv).1.2 <;>
          cases hb : it.downloadBtnVisible <;>
            cases hc : it.captureOk <;>
              simp [download_pdf_from_result, hld, ha, hj, hb, hc] at h ⊢
  · intro slug idx it h
    cases hld : it.landsOnDetail <;>
      cases ha : (ensure_authenticated it.authEnv).1.1 <;>
        cases hj : (ensure_authenticated it.authEnv).1.2 <;>
          cases hb : it.downloadBtnVisible <;>
            cases hc : it.captureOk <;>
              simp [download_pdf_from_result, hld, ha, hj, hb, hc] at h ⊢
  · intro limit query env p hs hp
    have hr : get_search_results env.rows ≠ [] :=
      List.ne_nil_of_mem (selectedResults_subset limit env hp)
    have hb := run_body limit query env hs hr
    have hmem := processItems_clickRow_mem (create_query_slug query)
      (selectedResults limit env) p hp
    simp only [runOps, hb]
    exact List.mem_append_left _ (List.mem_append_right _ hmem)

/-- Witness for the amended C4 at concrete items and a concrete run. -/
theorem C4_amended_recovery_follows_success_not_failure_witness :
    (download_pdf_from_result "q" 1 itemOk).2 =
      ([Op.clickRow 1, Op.waitMs 3000, Op.authCheck] ++
        (if (ensure_authenticated itemOk.authEnv).1.2 then [Op.saveSession] else [])) ++
      [Op.clickDownload 1,
       Op.saveFile (final_filename 1 "q" itemOk.suggestedName),
       Op.gotoResults, Op.waitMs 2000] ∧
    Op.gotoResults ∉ (download_pdf_from_result "q" 1 itemNavFail).2 ∧
    Op.clickRow 1 ∈ runOps none "q" runEnvNavFailFirst :=
  ⟨C4_amended_recovery_follows_success_not_failure.1 "q" 1 itemOk (by decide),
   C4_amended_recovery_follows_success_not_failure.2.1 "q" 1 itemNavFail (by decide),
   C4_amended_recovery_follows_success_not_failure.2.2 none "q" runEnvNavFailFirst
     (1, itemNavFail) rfl (by decide)⟩

/-- Claim C6 counterexample.  With `limit = 0` supplied and one enumerated
result that downloads successfully, the returned count is 1, which does
not lie in `[0, min(limit, resultsFound)] = [0, 0]`. -/
theorem C6_counterexample_zero_limit_bound_violated :
    (runResult (some 0) "q" runEnvOneOk).1 = 1 ∧
    (get_search_results runEnvOneOk.rows).length = 1 ∧
    ¬ ((runResult (some 0) "q" runEnvOneOk).1 : Int) ≤
        min 0 ((get_search_results runEnvOneOk.rows).length : Int) := by
  decide

/-- Claim C6, amended.  Every run returns a well-formed result with
`len(files) == count` and `count ≤ resultsFound`; when a *positive* limit
is supplied, `count ≤ limit` as well (so both lie in
`[0, min(limit, resultsFound)]`).  A supplied limit of 0 is ineffective
(treated as no limit), and a negative limit only shortens the processed
list, keeping the `[0, resultsFound]` bound. -/
theorem C6_amended_run_result_bounds :
    (∀ (limit : Option Int) (query : String) (env : RunEnv),
        (runResult limit query env).1 = (runResult limit query env).2.length) ∧
    (∀ (limit : Option Int) (query : String) (env : RunEnv),
        (runResult limit query env).1 ≤ (get_search_results env.rows).length) ∧
    (∀ (l : Int) (query : String) (env : RunEnv), 0 < l →
        ((runResult (some l) query env).1 : Int) ≤ l) := by
  refine ⟨?_, ?_, ?_⟩
  · intro limit query env
    cases hs : env.searchOk
    · simp [runResult, download_all_pdfs, hs]
    · by_cases hr : get_search_results env.rows = []
      · simp [runResult, download_all_pdfs, hs, hr]
      · have hb := run_body limit query env hs hr
        simp [runResult, hb, processItems_count_eq_length]
  · intro limit query env
    cases hs : env.searchOk
    · simp [runResult, download_all_pdfs, hs]
    · by_cases hr : get_search_results env.rows = []
      · simp [runResult, download_all_pdfs, hs, hr]
      · have hb := run_body limit query env hs hr
        have h1 := processItems_count_le (create_query_slug query) (selectedResults limit env)
        have h2 := selectedResults_length_le limit env
        simp only [runResult, hb]
        omega
  · intro l query env hl
    cases hs : env.searchOk
    · simp [runResult, download_all_pdfs, hs]
      omega
    · by_cases hr : get_search_results env.rows = []
      · simp [runResult, download_all_pdfs, hs, hr]
        omega
      · have hb := run_body (some l) query env hs hr
        have h1 := processItems_count_le (create_query_slug query) (selectedResults (some l) env)
        have h2 := selectedResults_length_le_pos l env hl
        simp only [runResult, hb]
        omega

/-- Witness for the amended C6 at a concrete two-item run with limit 1. -/
theorem C6_amended_run_result_bounds_witness :
    (runResult (some 1) "q" runEnvTwoOk).1 = (runResult (some 1) "q" runEnvTwoOk).2.length ∧
    (runResult (some 1) "q" runEnvTwoOk).1 ≤ (get_search_results runEnvTwoOk.rows).length ∧
    ((runResult (some 1) "q" runEnvTwoOk).1 : Int) ≤ 1 :=
  ⟨C6_amended_run_result_bounds.1 (some 1) "q" runEnvTwoOk,
   C6_amended_run_result_bounds.2.1 (some 1) "q" runEnvTwoOk,
   C6_amended_run_result_bounds.2.2 1 "q" runEnvTwoOk (by decide)⟩

/-- Claim C7 counterexample.  A run whose search navigation fails ends
without any session-state write: the claim's "unconditionally once more at
the end of the run, on every run-ending path including search failure" is
false on the code, which returns before the save. -/
theorem C7_counterexample_search_failure_no_session_save :
    runOps none "q" runEnvSearchFail = [Op.gotoSearch] ∧
    (runOps none "q" runEnvSearchFail).countP isSaveOp = 0 := by
  decide

/-- Claim C7, amended.  Session state is written immediately after each
item whose authentication call reports a login (before any further page
operation of that item), and once more at the end of the run — but only on
the run path where the search succeeded and at least one result was
enumerated; a run ending in search failure or zero results writes nothing.
On the normal path the number of writes is exactly (items with a login
event) + 1, and the final page operation of the run is the write. -/
theorem C7_amended_session_save_points :
    (∀ (limit : Option Int) (query : String) (env : RunEnv),
        env.searchOk = true → get_search_results env.rows ≠ [] →
        (runOps limit query env).countP isSaveOp =
          (selectedResults limit env).countP (fun p => itemLoginSave p.2) + 1 ∧
        (runOps limit query env).getLast? = some Op.saveSession) ∧
    (∀ (limit : Option Int) (query : String) (env : RunEnv),
        env.searchOk = false → (runOps limit query env).countP isSaveOp = 0) ∧
    (∀ (limit : Option Int) (query : String) (env : RunEnv),
        get_search_results env.rows = [] →
        (runOps limit query env).countP isSaveOp = 0) := by
  refine ⟨?_, ?_, ?_⟩
  · intro limit query env hs hr
    have hb := run_body limit query env hs hr
    constructor
    · simp [runOps, hb, List.countP_append, List.countP_cons, isSaveOp,
        processItems_saveCount]
    · simp only [runOps, hb]
      exact List.getLast?_concat _
  · intro limit query env hs
    simp [runOps, download_all_pdfs, hs, isSaveOp, List.countP_cons]
  · intro limit query env hr
    cases hs : env.searchOk <;>
      simp [runOps, download_all_pdfs, hs, hr, isSaveOp, List.countP_cons]

/-- Witness for the amended C7 at a concrete run whose first item logs
in. -/
theorem C7_amended_session_save_points_witness :
    (runOps none "q" runEnvLoginFirst).countP isSaveOp =
      (selectedResults none runEnvLoginFirst).countP (fun p => itemLoginSave p.2) + 1 ∧
    (runOps none "q" runEnvLoginFirst).getLast? = some Op.saveSession :=
  C7_amended_session_save_points.1 none "q" runEnvLoginFirst rfl (by decide)

/-! ## Filename-shape lemmas -/

lemma digitChar_isDig (n : Nat) : isDig (digitChar n) = true := by
  unfold digitChar
  split_ifs <;> decide

lemma natDigitsGo_all_isDig (fuel : Nat) :
    ∀ (n : Nat), ∀ c ∈ natDigitsGo fuel n, isDig c = true := by
  induction fuel with
  | zero =>
    intro n c hc
    simp [natDigitsGo] at hc
  | succ fuel ih =>
    intro n c hc
    unfold natDigitsGo at hc
    split at hc
    · simp at hc
      subst hc
      exact digitChar_isDig n
    · rcases List.mem_append.mp hc with h | h
      · exact ih (n / 10) c h
      · simp at h
        subst h
        exact digitChar_isDig (n % 10)

lemma pyFormat02d_all_isDig (n : Nat) : ∀ c ∈ pyFormat02d n, isDig c = true := by
  intro c hc
  simp only [pyFormat02d] at hc
  by_cases hlen : (natDigits n).length < 2
  · rw [if_pos hlen] at hc
    rcases List.mem_append.mp hc with h | h
    · rw [List.eq_of_mem_replicate h]
      decide
    · exact natDigitsGo_all_isDig (n + 1) n c h
  · rw [if_neg hlen] at hc
    exact natDigitsGo_all_isDig (n + 1) n c hc

lemma pyFormat02d_len_ge (n : Nat) : 2 ≤ (pyFormat02d n).length := by
  simp only [pyFormat02d]
  by_cases hlen : (natDigits n).length < 2
  · rw [if_pos hlen]
    simp [List.length_append, List.length_replicate]
    omega
  · rw [if_neg hlen]
    omega

lemma natDigitsGo_len_le_one (fuel n : Nat) (h : n < 10) :
    (natDigitsGo fuel n).length ≤ 1 := by
  cases fuel with
  | zero => simp [natDigitsGo]
  | succ fuel => simp [natDigitsGo, h]

lemma natDigitsGo_len_le_two (fuel n : Nat) (h : n < 100) :
    (natDigitsGo fuel n).length ≤ 2 := by
  cases fuel with
  | zero => simp [natDigitsGo]
  | succ fuel =>
    by_cases h10 : n < 10
    · simp [natDigitsGo, h10]
    · have hd : n / 10 < 10 := by
        rw [Nat.div_lt_iff_lt_mul (by norm_num)]
        omega
      have hone := natDigitsGo_len_le_one fuel (n / 10) hd
      simp [natDigitsGo, h10, List.length_append]
      omega

lemma pyFormat02d_len_le (n : Nat) (h : n ≤ 99) : (pyFormat02d n).length ≤ 2 := by
  have h2 : (natDigits n).length ≤ 2 := natDigitsGo_len_le_two (n + 1) n (by omega)
  simp only [pyFormat02d]
  by_cases hlen : (natDigits n).length < 2
  · rw [if_pos hlen]
    simp [List.length_append, List.length_replicate]
    omega
  · rw [if_neg hlen]
    exact h2

lemma illegalChar_sanitizeChar (c : Char) : illegalChar (sanitizeChar c) = false := by
  unfold sanitizeChar
  by_cases h : illegalChar c = true
  · rw [if_pos h]
    decide
  · rw [Bool.not_eq_true] at h
    rw [if_neg (by simp [h])]
    exact h

lemma sanitize_no_illegal (s : String) :
    ∀ c ∈ (sanitize_filename s).data, illegalChar c = false := by
  intro c hc
  simp only [sanitize_filename] at hc
  have hc2 : c ∈ s.data.map sanitizeChar := List.take_subset _ _ hc
  rcases List.mem_map.mp hc2 with ⟨x, _, hx⟩
  rw [← hx]
  exact illegalChar_sanitizeChar x

lemma sanitize_len_le (s : String) : (sanitize_filename s).data.length ≤ 200 := by
  simp only [sanitize_filename]
  exact List.length_take_le _ _

lemma sanitize_ne_nil (s : String) (h : s.data ≠ []) :
    (sanitize_filename s).data ≠ [] := by
  have hl : 0 < s.data.length := List.length_pos.mpr h
  intro hcontra
  simp only [sanitize_filename] at hcontra
  have h0 := congrArg List.length hcontra
  simp only [List.length_take, List.length_map, List.length_nil] at h0
  omega

lemma collapseWsGo_chars (l : List Char) :
    ∀ (b : Bool), ∀ c ∈ collapseWsGo b l, c = '_' ∨ (c ∈ l ∧ isPySpace c = false) := by
  induction l with
  | nil =>
    intro b c hc
    simp [collapseWsGo] at hc
  | cons x rest ih =>
    intro b c hc
    unfold collapseWsGo at hc
    by_cases hx : isPySpace x = true
    · rw [if_pos hx] at hc
      by_cases hb : b = true
      · rw [if_pos hb] at hc
        rcases ih true c hc with h | h
        · exact Or.inl h
        · exact Or.inr ⟨List.mem_cons_of_mem x h.1, h.2⟩
      · rw [if_neg hb] at hc
        rcases List.mem_cons.mp hc with h | h
        · exact Or.inl h
        · rcases ih true c h with h2 | h2
          · exact Or.inl h2
          · exact Or.inr ⟨List.mem_cons_of_mem x h2.1, h2.2⟩
    · rw [if_neg hx] at hc
      rcases List.mem_cons.mp hc with h | h
      · subst h
        rw [Bool.not_eq_true] at hx
        exact Or.inr ⟨List.mem_cons_self c rest, hx⟩
      · rcases ih false c h with h2 | h2
        · exact Or.inl h2
        · exact Or.inr ⟨List.mem_cons_of_mem x h2.1, h2.2⟩

lemma stripSpaces_subset (l : List Char) : stripSpaces l ⊆ l := by
  intro c hc
  unfold stripSpaces at hc
  rw [List.mem_reverse] at hc
  have hc2 := (List.dropWhile_sublist _).subset hc
  rw [List.mem_reverse] at hc2
  exact (List.dropWhile_sublist _).subset hc2

lemma slug_chars (q : String) :
    ∀ c ∈ (create_query_slug q).data, specWordCharHyphen c = true := by
  intro c hc
  simp only [create_query_slug] at hc
  have hc2 := List.take_subset _ _ hc
  rcases collapseWsGo_chars _ false c hc2 with h | h
  · subst h
    decide
  · have hmem := stripSpaces_subset _ h.1
    have hk := (List.mem_filter.mp hmem).2
    simp [slugKeep, h.2] at hk
    simp [specWordCharHyphen, specWordChar]
    tauto

lemma slug_len_le (q : String) : (create_query_slug q).data.length ≤ 50 := by
  simp only [create_query_slug]
  exact List.length_take_le _ _

lemma isDig_not_illegal (c : Char) (h : isDig c = true) : illegalChar c = false := by
  by_contra hcon
  rw [Bool.not_eq_false] at hcon
  simp [illegalChar, or_assoc] at hcon
  rcases hcon with h1 | h1 | h1 | h1 | h1 | h1 | h1 | h1 | h1 <;>
    subst h1 <;> exact absurd h (by decide)

lemma wordCharHyphen_not_illegal (c : Char) (h : specWordCharHyphen c = true) :
    illegalChar c = false := by
  by_contra hcon
  rw [Bool.not_eq_false] at hcon
  simp [illegalChar, or_assoc] at hcon
  rcases hcon with h1 | h1 | h1 | h1 | h1 | h1 | h1 | h1 | h1 <;>
    subst h1 <;> exact absurd h (by decide)

lemma midMatch_of_split (W : Char → Bool) (mid rest : List Char)
    (hmid : ∀ c ∈ mid, W c = true) (hlen : mid.length ≤ 50) (hrest : rest ≠ []) :
    midMatch W (mid ++ '_' :: '_' :: rest) = true := by
  unfold midMatch
  rw [List.any_eq_true]
  refine ⟨mid.length, List.mem_range.mpr (by omega), ?_⟩
  rw [Bool.and_eq_true]
  constructor
  · rw [List.take_left]
    exact List.all_eq_true.mpr hmid
  · rw [List.drop_left]
    cases rest with
    | nil => exact absurd rfl hrest
    | cons r rs => rfl

lemma regexSpecMatch_of_split (W : Char → Bool) (s : String) (ds mid rest : List Char)
    (hs : s.data = ds ++ '_' :: (mid ++ '_' :: '_' :: rest))
    (h2 : 2 ≤ ds.length) (hds : ∀ c ∈ ds, isDig c = true)
    (hmid : ∀ c ∈ mid, W c = true) (hlen : mid.length ≤ 50) (hrest : rest ≠ []) :
    regexSpecMatch W s = true := by
  simp only [regexSpecMatch, hs]
  rw [List.any_eq_true]
  refine ⟨ds.length, List.mem_range.mpr ?_, ?_⟩
  · simp [List.length_append]
    omega
  · rw [Bool.and_eq_true, Bool.and_eq_true]
    refine ⟨⟨by simp [h2], ?_⟩, ?_⟩
    · rw [List.take_left]
      exact List.all_eq_true.mpr hds
    · rw [List.drop_left]
      show midMatch W (mid ++ '_' :: '_' :: rest) = true
      exact midMatch_of_split W mid rest hmid hlen hrest

lemma derived_filename_data (index : Nat) (query suggested : String) :
    (derived_filename index query suggested).data =
      pyFormat02d index ++ '_' ::
        ((create_query_slug query).data ++ '_' :: '_' ::
          (sanitize_filename (if suggested = "" then fallbackName index
            else suggested)).data) := by
  have h1 : ("_" : String).data = ['_'] := rfl
  have h2 : ("__" : String).data = ['_', '_'] := rfl
  simp only [derived_filename, final_filename, String.data_append, h1, h2]
  simp

lemma fallbackName_data_ne_nil (index : Nat) : (fallbackName index).data ≠ [] := by
  have hd : (fallbackName index).data =
      ("document_" : String).data ++ (natDigits index ++ (".pdf" : String).data) := by
    simp [fallbackName, String.data_append]
  intro hcontra
  rw [hd] at hcontra
  have h0 := congrArg List.length hcontra
  simp [List.length_append] at h0

/-- Claim C8 counterexample.  `create_query_slug` preserves hyphens
(`-` is inside the kept class `[a-zA-Z0-9\s-]`), but the spec's pattern
`^\d{2,}_[A-Za-z0-9_]{0,50}__.+` does not admit a hyphen in the slug
segment: the filename derived for result 1 of query `"a-b"` with suggested
name `"doc.pdf"` is `"01_a-b__doc.pdf"`, which does not match. -/
theorem C8_counterexample_hyphen_slug_fails_spec_regex :
    derived_filename 1 "a-b" "doc.pdf" = "01_a-b__doc.pdf" ∧
    regexSpecMatch specWordChar (derived_filename 1 "a-b" "doc.pdf") = false := by
  decide

/-- Claim C8, amended.  Every derived filename matches the spec's pattern
with the slug class widened by the hyphen
(`^\d{2,}_[A-Za-z0-9_-]{0,50}__.+`), contains none of the characters the
sanitizer strips (`<>:"/\|?*`), and — for two-digit ordinals — has length
at most 255 (2 ordinal digits + 1 + 50-bounded slug + 2 + 200-bounded
sanitized name). -/
theorem C8_amended_filename_shape (index : Nat) (query suggested : String)
    (h1 : 1 ≤ index) :
    regexSpecMatch specWordCharHyphen (derived_filename index query suggested) = true ∧
    (∀ c ∈ (derived_filename index query suggested).data, illegalChar c = false) ∧
    (index ≤ 99 → (derived_filename index query suggested).length ≤ 255) := by
  have hdata := derived_filename_data index query suggested
  have hsafe_ne :
      (sanitize_filename (if suggested = "" then fallbackName index
        else suggested)).data ≠ [] := by
    apply sanitize_ne_nil
    by_cases hs : suggested = ""
    · rw [if_pos hs]
      exact fallbackName_data_ne_nil index
    · rw [if_neg hs]
      intro hcontra
      apply hs
      have heta : suggested = String.mk suggested.data := rfl
      rw [hcontra] at heta
      exact heta
  refine ⟨?_, ?_, ?_⟩
  · exact regexSpecMatch_of_split specWordCharHyphen _ (pyFormat02d index)
      (create_query_slug query).data _ hdata (pyFormat02d_len_ge index)
      (pyFormat02d_all_isDig index) (slug_chars query) (slug_len_le query) hsafe_ne
  · intro c hc
    rw [hdata] at hc
    rcases List.mem_append.mp hc with h | h
    · exact isDig_not_illegal c (pyFormat02d_all_isDig index c h)
    · rcases List.mem_cons.mp h with h | h
      · subst h
        decide
      · rcases List.mem_append.mp h with h | h
        · exact wordCharHyphen_not_illegal c (slug_chars query c h)
        · rcases List.mem_cons.mp h with h | h
          · subst h
            decide
          · rcases List.mem_cons.mp h with h | h
            · subst h
              decide
            · exact sanitize_no_illegal _ c h
  · intro hle
    have hpad := pyFormat02d_len_le index hle
    have hslug := slug_len_le query
    have hsafe := sanitize_len_le (if suggested = "" then fallbackName index
      else suggested)
    have hlen : (derived_filename index query suggested).length =
        (derived_filename index query suggested).data.length := rfl
    rw [hlen, hdata]
    simp only [List.length_append, List.length_cons]
    omega

/-- Witness for the amended C8 at result 1 of query `"a-b"` with suggested
name `"doc.pdf"`. -/
theorem C8_amended_filename_shape_witness :
    regexSpecMatch specWordCharHyphen (derived_filename 1 "a-b" "doc.pdf") = true ∧
    (derived_filename 1 "a-b" "doc.pdf").length ≤ 255 :=
  ⟨(C8_amended_filename_shape 1 "a-b" "doc.pdf" (by decide)).1,
   (C8_amended_filename_shape 1 "a-b" "doc.pdf" (by decide)).2.2 (by decide)⟩
